import Mathlib

/-!
Shallow embedding of the adaptive weight-factor calculator of qrefine
(`calculator.py`): the `weights` state object, the bond-RMSD probe
`get_bonds_rmsd`, the site-refinement composite objective
(`sites.target_and_gradients`, `sites.update_restraints_weight_scale`)
and the displacement-parameter calculator's `adp.calculate_weight`.

Python floats are modelled as real numbers; flex arrays as Lean lists;
external collaborators (fmodel, restraints manager, the random shake) as
abstract functions supplied to the operations that call them.
-/

open scoped Classical

noncomputable section

/-- One entry of a `flex.vec3_double` array: a 3-vector of reals. -/
abbrev Vec3 : Type := ℝ × ℝ × ℝ

/-- Scalar multiplication of a vec3 (cctbx `vec3_double * scalar`). -/
def vscale (c : ℝ) (v : Vec3) : Vec3 := (c * v.1, c * v.2.1, c * v.2.2)

/-- Element-wise sum of two vec3 entries (cctbx `vec3_double + vec3_double`). -/
def vadd (a b : Vec3) : Vec3 := (a.1 + b.1, a.2.1 + b.2.1, a.2.2 + b.2.2)

/-- The dot of an entry with itself: one element of `g.dot()`. -/
def vec3NormSq (v : Vec3) : ℝ := v.1 ^ 2 + v.2.1 ^ 2 + v.2.2 ^ 2

/-- Models `vec3_double.as_double()`: the flattened 3N-component array. -/
def vec3AsDouble (g : List Vec3) : List ℝ :=
  g.flatMap (fun v => [v.1, v.2.1, v.2.2])

/-- Models `flex` Euclidean norm of a vec3 array: square root of the sum of the
squares of all components. -/
def flexNorm (g : List Vec3) : ℝ := Real.sqrt ((g.map vec3NormSq).sum)

/-- Models `flex.sqrt(g.dot())`: the per-atom gradient magnitudes. -/
def perAtomNorms (g : List Vec3) : List ℝ :=
  g.map (fun v => Real.sqrt (vec3NormSq v))

/-- Models `flex.mean`: arithmetic mean of a double array. -/
def flexMean (l : List ℝ) : ℝ := l.sum / l.length

/-- The outlier mask `sel = g_d > flex.mean(g_d)*6` computed in
`weights.compute_weight` (calculator.py lines 98-99 and 102-103):
`true` marks an atom whose per-atom gradient norm exceeds six times the
mean per-atom gradient norm. -/
def outlierSel (g : List Vec3) : List Bool :=
  (perAtomNorms g).map (fun d => decide (d > flexMean (perAtomNorms g) * 6))

/-- Models `g.select(~sel)`: the entries of `g` at which the outlier mask is false. -/
def selectNotOutliers (g : List Vec3) : List Vec3 :=
  ((g.zip (outlierSel g)).filter (fun p => !p.2)).map Prod.fst

/-- Models `g.select(~sel).norm()`: the aggregate norm over the retained atoms. -/
def filteredNorm (g : List Vec3) : ℝ := flexNorm (selectNotOutliers g)

/-- The value `weights.compute_weight` stores in `data_weight`
(calculator.py lines 97-107): `x/y` with `x` the filtered restraints
gradient norm and `y` the filtered data gradient norm, falling back to
`1.0` when `y == 0.0`. -/
def dataWeightOf (gx gc : List Vec3) : ℝ :=
  let y := filteredNorm gx
  let x := filteredNorm gc
  if y ≠ 0 then x / y else 1

/-- Python `round(x, 4)` as used on `r_free`/`r_work` history entries.
(Tie-breaking of Python's float rounding is not relied on by any theorem.) -/
def round4 (x : ℝ) : ℝ := ((round (x * 10000) : ℤ) : ℝ) / 10000

/-- The `weights` state object of calculator.py (lines 23-36). `None`
fields are `Option.none`; `restraints_weight_scales` is the
`flex.double` history array, `r_frees`/`r_works` the Python lists. -/
structure Weights where
  shake_sites : Bool
  restraints_weight : Option ℝ
  data_weight : Option ℝ
  restraints_weight_scale : ℝ
  weight_was_provided : Bool
  restraints_weight_scales : List ℝ
  r_frees : List ℝ
  r_works : List ℝ

/-- Models `weights.__init__`: `weight_was_provided` is set exactly when a
`data_weight` was passed; the scale history starts with the initial
scale; the R-value histories start empty. -/
def Weights.init (shake_sites : Bool) (restraints_weight data_weight : Option ℝ)
    (restraints_weight_scale : ℝ) : Weights where
  shake_sites := shake_sites
  restraints_weight := restraints_weight
  data_weight := data_weight
  restraints_weight_scale := restraints_weight_scale
  weight_was_provided := data_weight.isSome
  restraints_weight_scales := [restraints_weight_scale]
  r_frees := []
  r_works := []

/-- Models `weights.scale_restraints_weight` (lines 38-40): no-op when the
weight was provided, otherwise quadruples the scale. -/
def Weights.scale_restraints_weight (s : Weights) : Weights :=
  if s.weight_was_provided then s
  else { s with restraints_weight_scale := s.restraints_weight_scale * 4 }

/-- The quantities `adjust_restraints_weight_scale` reads from its
`fmodel` and `geometry_rmsd_manager` arguments: `fmodel.r_work()`,
`fmodel.r_free()`, and the value `get_bonds_rmsd` computes for the
structure (an external evaluator call). -/
structure FModelStats where
  r_work : ℝ
  r_free : ℝ
  bonds_rmsd : ℝ

/-- The branch cascade of `adjust_restraints_weight_scale` (lines 56-70).
The source guards each later branch with `not adjusted and ...`, which is
exactly an else-if chain; the pair returned is the new scale and the
`adjusted` flag. -/
def adjustCore (wsc rw rf rmsd maxr scale : ℝ) : ℝ × Bool :=
  if rmsd > maxr then (wsc * scale, true)
  else if rf < rw then (wsc / scale, true)
  else if rmsd < maxr ∧ rf > rw ∧ |rf - rw| * 100 < 5 then (wsc / scale, true)
  else if rmsd < maxr ∧ rf > rw ∧ |rf - rw| * 100 > 5 then (wsc * scale, true)
  else (wsc, false)

/-- Models `weights.adjust_restraints_weight_scale` (lines 42-74): returns the
updated state and the returned value, `none` (Python `None`) on the
frozen path, `some adjusted` otherwise; on the active path it appends
the rounded R values to the histories. -/
def Weights.adjust_restraints_weight_scale (s : Weights) (fm : FModelStats)
    (max_bond_rmsd scale : ℝ) : Weights × Option Bool :=
  if s.weight_was_provided then (s, none)
  else
    let rw := fm.r_work
    let rf := fm.r_free
    let cctbx_rm_bonds_rmsd := fm.bonds_rmsd
    let res := adjustCore s.restraints_weight_scale rw rf cctbx_rm_bonds_rmsd
      max_bond_rmsd scale
    ({ s with
        restraints_weight_scale := res.1
        r_frees := s.r_frees ++ [round4 rf]
        r_works := s.r_works ++ [round4 rw] },
      some res.2)

/-- The perturbation step of `compute_weight` (lines 85-88): the deep
copy is shaken only when `shake_sites` is set; the random state was just
reseeded to the fixed seed 1 (`random.seed(1)`, `flex.set_random_seed(1)`),
so the shake consumes randomness starting from state 1. The pair is the
perturbed structure and the random state after shaking. -/
def shakeStep {S : Type} (shakeFn : S → ℕ → S × ℕ) (s : Weights) (fm : S) :
    S × ℕ :=
  if s.shake_sites then shakeFn fm 1 else (fm, 1)

/-- Models `weights.compute_weight` (lines 80-107). External collaborators are
abstract: `shakeFn` models `shake_sites_in_place` acting on the deep
copy together with the global random state, `dataGrad` models the data
target functor's site gradients at the perturbed structure, `restrGrad`
models `rm.target_and_gradients` gradients there. The function maps the
weights state and the incoming global random-number state to their
successors; the deep copies mean the caller's `fmodel` is untouched,
which the functional embedding makes implicit. -/
def Weights.compute_weight {S : Type} (shakeFn : S → ℕ → S × ℕ)
    (dataGrad restrGrad : S → List Vec3) (s : Weights) (rng : ℕ) (fm : S) :
    Weights × ℕ :=
  if s.weight_was_provided then (s, rng)
  else
    let shaken := shakeStep shakeFn s fm
    let gx := dataGrad shaken.1
    let gc := restrGrad shaken.1
    ({ s with data_weight := some (dataWeightOf gx gc) }, shaken.2)

/-- Models `array.select(mask)`: keep the entries at which the mask is true. -/
def selectMask {α : Type} (l : List α) (m : List Bool) : List α :=
  ((l.zip m).filter (fun p => p.2)).map Prod.fst

/-- The parts of an `xray_structure` that `get_bonds_rmsd` reads: the
per-atom hydrogen flags (`hd_selection()`) and the Cartesian sites. -/
structure XrayStructure where
  hd_selection : List Bool
  sites_cart : List Vec3

/-- Abstract restraints manager for the bond-RMSD probe.
`bond_deviations_rmsd sel sites` models the external call chain
`restraints_manager.select(sel).energies_sites(sites_cart = sites,
compute_gradients = False).bond_deviations()[2]`. -/
structure RestraintsManagerModel where
  bond_deviations_rmsd : List Bool → List Vec3 → ℝ

/-- Models `get_bonds_rmsd` (calculator.py lines 15-21): restrict the manager
and the sites to the non-hydrogen atoms and return the evaluator's bond
RMSD. The source performs no emptiness check of its own. -/
def get_bonds_rmsd (restraints_manager : RestraintsManagerModel)
    (xrs : XrayStructure) : ℝ :=
  let not_hd := xrs.hd_selection.map (fun b => !b)
  restraints_manager.bond_deviations_rmsd not_hd
    (selectMask xrs.sites_cart not_hd)

/-- The parts of the `sites` calculator state that its weight-scale and
objective operations touch: the shared `weights` object, the
`dump_gradients` debug sink (a file name or `None`), and the current
parameter vector `x`. -/
structure SitesState where
  weights : Weights
  dump_gradients : Option String
  x : List Vec3

/-- Models `sites.update_restraints_weight_scale` (lines 200-201): writes the
given scale into the shared weights object, with no
`weight_was_provided` guard. -/
def SitesState.update_restraints_weight_scale (st : SitesState) (v : ℝ) :
    SitesState :=
  { st with weights := { st.weights with restraints_weight_scale := v } }

/-- Models `sites.target_and_gradients` (lines 210-227). `restraintsTG` models
`restraints_manager.target_and_gradients(sites_cart)` and `dataTG` the
data target functor (`target_work()` and the packed site gradients),
both at the freshly written positions `x`. The second component is the
returned pair, `none` when the call does not return normally: the
debug-dump path ends in `STOP()`, and an unset (`None`) weight would
make the combination step fail. -/
def SitesState.target_and_gradients (restraintsTG dataTG : List Vec3 → ℝ × List Vec3)
    (st : SitesState) (x : List Vec3) : SitesState × Option (ℝ × List ℝ) :=
  let st1 : SitesState := { st with x := x }
  let rtg := restraintsTG x
  let tgx := dataTG x
  match st1.weights.data_weight, st1.weights.restraints_weight with
  | some dw, some rw =>
    let t := tgx.1 * dw + rw * rtg.1 * st1.weights.restraints_weight_scale
    let g := List.zipWith vadd (tgx.2.map (vscale dw))
      ((rtg.2.map (vscale rw)).map (vscale st1.weights.restraints_weight_scale))
    if st1.dump_gradients ≠ none then (st1, none)
    else (st1, some (t, vec3AsDouble g))
  | _, _ => (st1, none)

/-- The part of the `adp` calculator state that `calculate_weight` would
touch. -/
structure AdpState where
  data_weight : Option ℝ

/-- Models `adp.calculate_weight` (lines 253-257): raises
`RuntimeError("Not implemented.")` first; the assignment after the raise
is dead code (its result is the abstract `cw` here, never reached). -/
def AdpState.calculate_weight (st : AdpState) (cw : ℝ) :
    Except String AdpState := do
  throw "Not implemented."
  return { st with data_weight := some cw }

/-- One call to a weights-object method, for stating properties of
arbitrary call sequences: `scaleOp` is `scale_restraints_weight`,
`adjustOp` is `adjust_restraints_weight_scale` with the given readings,
`computeOp` is `compute_weight` on the given fmodel. -/
inductive WOp (S : Type) where
  | scaleOp : WOp S
  | adjustOp (fm : FModelStats) (max_bond_rmsd scale : ℝ) : WOp S
  | computeOp (fm : S) : WOp S

/-- Apply one weights-object call to the pair of weights state and
global random state (returned flags are discarded). -/
def applyWOp {S : Type} (shakeFn : S → ℕ → S × ℕ)
    (dataGrad restrGrad : S → List Vec3) (st : Weights × ℕ) :
    WOp S → Weights × ℕ
  | .scaleOp => (st.1.scale_restraints_weight, st.2)
  | .adjustOp fm m sc => ((st.1.adjust_restraints_weight_scale fm m sc).1, st.2)
  | .computeOp fm => st.1.compute_weight shakeFn dataGrad restrGrad st.2 fm

/-- Apply a sequence of weights-object calls in order. -/
def applyWOps {S : Type} (shakeFn : S → ℕ → S × ℕ)
    (dataGrad restrGrad : S → List Vec3) (st : Weights × ℕ)
    (ops : List (WOp S)) : Weights × ℕ :=
  ops.foldl (applyWOp shakeFn dataGrad restrGrad) st

/-- A weights object constructed with a user-supplied data weight
(`weight_was_provided = true`). -/
def wFrozen : Weights := Weights.init true (some 1) (some 3) 1

/-- A weights object constructed with no data weight
(`weight_was_provided = false`). -/
def wActive : Weights := Weights.init true (some 5) none 1

/-- Concrete fmodel readings with equal R values and a small bond RMSD:
none of the adjustment branches applies to them. -/
def fm0 : FModelStats := ⟨1 / 5, 1 / 5, 1 / 100⟩

/-- A trivial structure type and shake for concrete evaluations. -/
def shake0 : Unit → ℕ → Unit × ℕ := fun _ r => ((), r)

/-- A concrete data-gradient evaluator: one atom, gradient (1,0,0). -/
def dg0 : Unit → List Vec3 := fun _ => [((1 : ℝ), 0, 0)]

/-- A concrete restraints-gradient evaluator whose gradient is all-zero. -/
def rg0 : Unit → List Vec3 := fun _ => [((0 : ℝ), 0, 0)]

/-- A concrete restraints target-and-gradients evaluator for the
composite objective. -/
def rtg1 : List Vec3 → ℝ × List Vec3 := fun _ => (1, [((1 : ℝ), 0, 0)])

/-- A concrete data target-and-gradients evaluator for the composite
objective. -/
def dtg1 : List Vec3 → ℝ × List Vec3 := fun _ => (2, [((0 : ℝ), 1, 0)])

/-- A sites calculator state over a fully supplied weights object, with
the gradient dump disabled. -/
def stC1 : SitesState := ⟨Weights.init true (some 5) (some 3) 1, none, []⟩

/-- A sites calculator state over a frozen weights object. -/
def stC5 : SitesState := ⟨wFrozen, none, []⟩

/-- A restraints-manager model that reports bond RMSD 0 on every
selection, in particular on the empty one. -/
def rm0 : RestraintsManagerModel := ⟨fun _ _ => 0⟩

/-- A structure with no atoms: its non-hydrogen selection is empty. -/
def xrs0 : XrayStructure := ⟨[], []⟩

/-- A concrete sequence containing one call of each weights-object
method. -/
def opsW : List (WOp Unit) :=
  [.scaleOp, .adjustOp fm0 (3 / 100) 2, .computeOp ()]

/-! Helper lemmas. -/

lemma applyWOp_frozen {S : Type} (shakeFn : S → ℕ → S × ℕ)
    (dataGrad restrGrad : S → List Vec3) (s : Weights) (r : ℕ)
    (h : s.weight_was_provided = true) (op : WOp S) :
    applyWOp shakeFn dataGrad restrGrad (s, r) op = (s, r) := by
  cases op <;>
    simp [applyWOp, Weights.scale_restraints_weight,
      Weights.adjust_restraints_weight_scale, Weights.compute_weight, h]

lemma applyWOps_frozen {S : Type} (shakeFn : S → ℕ → S × ℕ)
    (dataGrad restrGrad : S → List Vec3) (s : Weights) (r : ℕ)
    (ops : List (WOp S)) (h : s.weight_was_provided = true) :
    applyWOps shakeFn dataGrad restrGrad (s, r) ops = (s, r) := by
  induction ops with
  | nil => rfl
  | cons op rest ih =>
    unfold applyWOps at ih ⊢
    rw [List.foldl_cons, applyWOp_frozen shakeFn dataGrad restrGrad s r h op, ih]

/-- C9: for every adp calculator state and every value the dead
assignment would store, `adp.calculate_weight` raises the
`Not implemented.` error and never returns a state normally, so it never
assigns a data weight. -/
theorem adp_calculate_weight_always_fails (st : AdpState) (cw : ℝ) :
    AdpState.calculate_weight st cw = Except.error "Not implemented." ∧
    ∀ st2 : AdpState, AdpState.calculate_weight st cw ≠ Except.ok st2 := by
  refine ⟨rfl, ?_⟩
  intro st2 hcontra
  rw [show AdpState.calculate_weight st cw = Except.error "Not implemented."
    from rfl] at hcontra
  exact Except.noConfusion hcontra

/-- C10: when the weight was provided, `adjust_restraints_weight_scale`
returns the Python value `None` rather than a boolean flag, and appends
nothing to the `r_frees` and `r_works` histories (the state is returned
unchanged). -/
theorem adjust_frozen_returns_none (s : Weights) (fm : FModelStats)
    (max_bond_rmsd scale : ℝ) (h : s.weight_was_provided = true) :
    s.adjust_restraints_weight_scale fm max_bond_rmsd scale = (s, none) ∧
    (∀ b : Bool,
      (s.adjust_restraints_weight_scale fm max_bond_rmsd scale).2 ≠ some b) := by
  simp [Weights.adjust_restraints_weight_scale, h]

/-- Witness for C10 at a concrete frozen weights object. -/
theorem adjust_frozen_returns_none_witness :
    wFrozen.weight_was_provided = true ∧
    wFrozen.adjust_restraints_weight_scale fm0 (3 / 100) 2 = (wFrozen, none) ∧
    (∀ b : Bool,
      (wFrozen.adjust_restraints_weight_scale fm0 (3 / 100) 2).2 ≠ some b) :=
  ⟨rfl,
    adjust_frozen_returns_none wFrozen fm0 (3 / 100) 2 rfl⟩

/-- C6: `compute_weight` is deterministic: it reseeds the global random
state to the fixed seed before shaking the deep copy, so for the same
structure and evaluators the resulting weights state is identical no
matter what random state each call starts from. -/
theorem compute_weight_deterministic {S : Type} (shakeFn : S → ℕ → S × ℕ)
    (dataGrad restrGrad : S → List Vec3) (s : Weights) (r1 r2 : ℕ) (fm : S) :
    (Weights.compute_weight shakeFn dataGrad restrGrad s r1 fm).1 =
      (Weights.compute_weight shakeFn dataGrad restrGrad s r2 fm).1 := by
  by_cases h : s.weight_was_provided <;>
    simp [Weights.compute_weight, h]

/-- C4: when the weight was provided, any sequence of calls to
`compute_weight`, `adjust_restraints_weight_scale` and
`scale_restraints_weight`, in any order, leaves every field of the
weights object unchanged. -/
theorem frozen_weights_ops_noop {S : Type} (shakeFn : S → ℕ → S × ℕ)
    (dataGrad restrGrad : S → List Vec3) (s : Weights) (r : ℕ)
    (ops : List (WOp S)) (h : s.weight_was_provided = true) :
    applyWOps shakeFn dataGrad restrGrad (s, r) ops = (s, r) :=
  applyWOps_frozen shakeFn dataGrad restrGrad s r ops h

/-- Witness for C4 at a concrete frozen weights object and a concrete
sequence containing one call of each method. -/
theorem frozen_weights_ops_noop_witness :
    wFrozen.weight_was_provided = true ∧
    applyWOps shake0 dg0 rg0 (wFrozen, 0) opsW = (wFrozen, 0) :=
  ⟨rfl, frozen_weights_ops_noop shake0 dg0 rg0 wFrozen 0 opsW rfl⟩

/-- Counterexample for C5: a frozen weights object (scale 1) held by a
sites calculator has its `restraints_weight_scale` overwritten to 2 by
`sites.update_restraints_weight_scale`, which performs no
`weight_was_provided` check. -/
theorem sites_update_scale_ignores_frozen_flag :
    stC5.weights.weight_was_provided = true ∧
    stC5.weights.restraints_weight_scale = 1 ∧
    (stC5.update_restraints_weight_scale 2).weights.restraints_weight_scale = 2 ∧
    (2 : ℝ) ≠ 1 :=
  ⟨rfl, rfl, rfl, by norm_num⟩

/-- C5 amended: when the weight was provided, the weights object's own
operations (`compute_weight`, `adjust_restraints_weight_scale`,
`scale_restraints_weight`) never modify `restraints_weight_scale` or
`data_weight` across any call sequence; however
`sites.update_restraints_weight_scale` writes `restraints_weight_scale`
unconditionally, so the invariant does not extend to it. -/
theorem frozen_fields_invariant_except_sites_update {S : Type}
    (shakeFn : S → ℕ → S × ℕ) (dataGrad restrGrad : S → List Vec3)
    (s : Weights) (r : ℕ) (ops : List (WOp S))
    (h : s.weight_was_provided = true) :
    ((applyWOps shakeFn dataGrad restrGrad (s, r) ops).1.restraints_weight_scale
        = s.restraints_weight_scale ∧
      (applyWOps shakeFn dataGrad restrGrad (s, r) ops).1.data_weight
        = s.data_weight) ∧
    ∀ (st : SitesState) (v : ℝ),
      (st.update_restraints_weight_scale v).weights.restraints_weight_scale = v := by
  refine ⟨?_, fun st v => rfl⟩
  rw [applyWOps_frozen shakeFn dataGrad restrGrad s r ops h]
  exact ⟨rfl, rfl⟩

/-- Witness for C5 amended at a concrete frozen weights object and a
concrete call sequence. -/
theorem frozen_fields_invariant_except_sites_update_witness :
    wFrozen.weight_was_provided = true ∧
    (((applyWOps shake0 dg0 rg0 (wFrozen, 0) opsW).1.restraints_weight_scale
        = wFrozen.restraints_weight_scale ∧
      (applyWOps shake0 dg0 rg0 (wFrozen, 0) opsW).1.data_weight
        = wFrozen.data_weight) ∧
    ∀ (st : SitesState) (v : ℝ),
      (st.update_restraints_weight_scale v).weights.restraints_weight_scale = v) :=
  ⟨rfl,
    frozen_fields_invariant_except_sites_update shake0 dg0 rg0 wFrozen 0 opsW rfl⟩

/-- Counterexample for C3: with `r_free = r_work = 1/5` and
`bond_rmsd = 1/100 < max_bond_rmsd = 3/100`, no decision branch fires:
the returned flag is `False` and the scale is unchanged, so the
no-adjustment outcome does occur on an active weights object. -/
theorem adjust_no_branch_fires_example :
    wActive.weight_was_provided = false ∧
    (wActive.adjust_restraints_weight_scale fm0 (3 / 100) 2).2 = some false ∧
    (wActive.adjust_restraints_weight_scale fm0 (3 / 100) 2).1.restraints_weight_scale
      = wActive.restraints_weight_scale := by
  refine ⟨rfl, ?_, ?_⟩ <;>
    norm_num [Weights.adjust_restraints_weight_scale, adjustCore, wActive,
      Weights.init, fm0]

/-- C3 amended: on an active weights object the four decision branches
are mutually exclusive but not exhaustive. The returned flag is always a
definite boolean; when it is `true`, exactly one branch fired and the
scale was multiplied or divided by the scale factor; the flag is `false`
precisely when all four branch conditions fail simultaneously (which
happens, e.g., for `r_free = r_work` with `bond_rmsd ≤ max_bond_rmsd`),
and then the scale is unchanged. -/
theorem adjust_branches_exclusive_not_exhaustive (s : Weights)
    (fm : FModelStats) (maxr sc : ℝ) (h : s.weight_was_provided = false) :
    ((s.adjust_restraints_weight_scale fm maxr sc).2 = some false ∨
      (s.adjust_restraints_weight_scale fm maxr sc).2 = some true) ∧
    ((s.adjust_restraints_weight_scale fm maxr sc).2 = some true →
      (s.adjust_restraints_weight_scale fm maxr sc).1.restraints_weight_scale
          = s.restraints_weight_scale * sc ∨
        (s.adjust_restraints_weight_scale fm maxr sc).1.restraints_weight_scale
          = s.restraints_weight_scale / sc) ∧
    ((s.adjust_restraints_weight_scale fm maxr sc).2 = some false →
      (s.adjust_restraints_weight_scale fm maxr sc).1.restraints_weight_scale
        = s.restraints_weight_scale) ∧
    ((s.adjust_restraints_weight_scale fm maxr sc).2 = some false ↔
      ¬(fm.bonds_rmsd > maxr) ∧ ¬(fm.r_free < fm.r_work) ∧
      ¬(fm.bonds_rmsd < maxr ∧ fm.r_free > fm.r_work ∧
          |fm.r_free - fm.r_work| * 100 < 5) ∧
      ¬(fm.bonds_rmsd < maxr ∧ fm.r_free > fm.r_work ∧
          |fm.r_free - fm.r_work| * 100 > 5)) := by
  simp only [Weights.adjust_restraints_weight_scale, h, Bool.false_eq_true,
    if_false]
  unfold adjustCore
  split_ifs with h1 h2 h3 h4 <;> simp_all

/-- Witness for C3 amended at a concrete active weights object and
concrete readings with equal R values. -/
theorem adjust_branches_exclusive_not_exhaustive_witness :
    wActive.weight_was_provided = false ∧
    (((wActive.adjust_restraints_weight_scale fm0 (3 / 100) 2).2 = some false ∨
      (wActive.adjust_restraints_weight_scale fm0 (3 / 100) 2).2 = some true) ∧
    ((wActive.adjust_restraints_weight_scale fm0 (3 / 100) 2).2 = some true →
      (wActive.adjust_restraints_weight_scale fm0 (3 / 100) 2).1.restraints_weight_scale
          = wActive.restraints_weight_scale * 2 ∨
        (wActive.adjust_restraints_weight_scale fm0 (3 / 100) 2).1.restraints_weight_scale
          = wActive.restraints_weight_scale / 2) ∧
    ((wActive.adjust_restraints_weight_scale fm0 (3 / 100) 2).2 = some false →
      (wActive.adjust_restraints_weight_scale fm0 (3 / 100) 2).1.restraints_weight_scale
        = wActive.restraints_weight_scale) ∧
    ((wActive.adjust_restraints_weight_scale fm0 (3 / 100) 2).2 = some false ↔
      ¬(fm0.bonds_rmsd > 3 / 100) ∧ ¬(fm0.r_free < fm0.r_work) ∧
      ¬(fm0.bonds_rmsd < 3 / 100 ∧ fm0.r_free > fm0.r_work ∧
          |fm0.r_free - fm0.r_work| * 100 < 5) ∧
      ¬(fm0.bonds_rmsd < 3 / 100 ∧ fm0.r_free > fm0.r_work ∧
          |fm0.r_free - fm0.r_work| * 100 > 5))) :=
  ⟨rfl, adjust_branches_exclusive_not_exhaustive wActive fm0 (3 / 100) 2 rfl⟩

lemma mem_of_mem_selectNotOutliers {g : List Vec3} {v : Vec3}
    (hv : v ∈ selectNotOutliers g) : v ∈ g := by
  obtain ⟨⟨a, b⟩, hp, rfl⟩ := List.mem_map.mp hv
  exact (List.of_mem_zip (List.mem_filter.mp hp).1).1

lemma filteredNorm_eq_zero_of_all_zero {g : List Vec3}
    (hz : ∀ v ∈ g, v = ((0 : ℝ), 0, 0)) : filteredNorm g = 0 := by
  unfold filteredNorm flexNorm
  have hall : ∀ x ∈ (selectNotOutliers g).map vec3NormSq, x = 0 := by
    intro x hx
    obtain ⟨v, hv, rfl⟩ := List.mem_map.mp hx
    rw [hz v (mem_of_mem_selectNotOutliers hv)]
    simp [vec3NormSq]
  rw [List.sum_eq_zero hall, Real.sqrt_zero]

lemma outlierSel_singleton (v : Vec3) : outlierSel [v] = [false] := by
  unfold outlierSel perAtomNorms flexMean
  simp only [List.map_cons, List.map_nil, List.sum_cons, List.sum_nil,
    List.length_cons, List.length_nil, add_zero, zero_add, Nat.cast_one]
  have h0 : (0 : ℝ) ≤ Real.sqrt (vec3NormSq v) := Real.sqrt_nonneg _
  have hnot : ¬(Real.sqrt (vec3NormSq v) >
      Real.sqrt (vec3NormSq v) / 1 * 6) := by
    rw [div_one]
    nlinarith
  rw [decide_eq_false hnot]

lemma filteredNorm_singleton (v : Vec3) :
    filteredNorm [v] = Real.sqrt (vec3NormSq v) := by
  unfold filteredNorm selectNotOutliers
  rw [outlierSel_singleton]
  simp [flexNorm]

/-- Counterexample for C2: on an active weights object with a one-atom
all-zero restraints gradient and data gradient `(1,0,0)`,
`compute_weight` stores `data_weight = 0.0`, not the claimed `1.0`: the
`1.0` fallback of the source guards a zero data-gradient norm `y`, not a
zero restraints-gradient norm. -/
theorem compute_weight_zero_restraints_gradient_gives_zero :
    wActive.weight_was_provided = false ∧
    (∀ v ∈ rg0 (shakeStep shake0 wActive ()).1, v = ((0 : ℝ), 0, 0)) ∧
    (Weights.compute_weight shake0 dg0 rg0 wActive 0 ()).1.data_weight
      = some 0 ∧
    some (0 : ℝ) ≠ some (1 : ℝ) := by
  have hy : filteredNorm [((1 : ℝ), 0, 0)] = 1 := by
    rw [filteredNorm_singleton]
    norm_num [vec3NormSq]
  have hx : filteredNorm [((0 : ℝ), 0, 0)] = 0 := by
    rw [filteredNorm_singleton]
    norm_num [vec3NormSq]
  refine ⟨rfl, by simp [rg0], ?_, by norm_num⟩
  have hcw : (Weights.compute_weight shake0 dg0 rg0 wActive 0 ()).1.data_weight
      = some (dataWeightOf (dg0 ()) (rg0 ())) := rfl
  rw [hcw]
  unfold dataWeightOf
  rw [show dg0 () = [((1 : ℝ), 0, 0)] from rfl,
    show rg0 () = [((0 : ℝ), 0, 0)] from rfl, hy, hx]
  norm_num

/-- C2 amended: on an active weights object, when the restraints
gradient at the perturbed configuration is all-zero, `compute_weight`
raises no division error — the stored weight is always defined: it is
`0.0` (the ratio `x/y` with `x = 0`) whenever the filtered data-gradient
norm is nonzero, and the `1.0` fallback applies only when the filtered
data-gradient norm is zero. -/
theorem compute_weight_zero_restraints_gradient (S : Type)
    (shakeFn : S → ℕ → S × ℕ) (dataGrad restrGrad : S → List Vec3)
    (s : Weights) (r : ℕ) (fm : S) (h : s.weight_was_provided = false)
    (hz : ∀ v ∈ restrGrad (shakeStep shakeFn s fm).1, v = ((0 : ℝ), 0, 0)) :
    (Weights.compute_weight shakeFn dataGrad restrGrad s r fm).1.data_weight
      = some (if filteredNorm (dataGrad (shakeStep shakeFn s fm).1) ≠ 0
          then 0 else 1) := by
  have hcw : (Weights.compute_weight shakeFn dataGrad restrGrad s r fm).1.data_weight
      = some (dataWeightOf (dataGrad (shakeStep shakeFn s fm).1)
          (restrGrad (shakeStep shakeFn s fm).1)) := by
    simp [Weights.compute_weight, h]
  rw [hcw]
  unfold dataWeightOf
  rw [filteredNorm_eq_zero_of_all_zero hz]
  by_cases hy : filteredNorm (dataGrad (shakeStep shakeFn s fm).1) = 0 <;>
    simp [hy]

/-- Witness for C2 amended at the concrete active weights object with a
one-atom all-zero restraints gradient. -/
theorem compute_weight_zero_restraints_gradient_witness :
    wActive.weight_was_provided = false ∧
    (∀ v ∈ rg0 (shakeStep shake0 wActive ()).1, v = ((0 : ℝ), 0, 0)) ∧
    (Weights.compute_weight shake0 dg0 rg0 wActive 0 ()).1.data_weight
      = some (if filteredNorm (dg0 (shakeStep shake0 wActive ()).1) ≠ 0
          then 0 else 1) :=
  ⟨rfl, by simp [rg0],
    compute_weight_zero_restraints_gradient Unit shake0 dg0 rg0 wActive 0 ()
      rfl (by simp [rg0])⟩

lemma perAtomNorms_scale (c : ℝ) (hc : 0 < c) (g : List Vec3) :
    perAtomNorms (g.map (vscale c)) = (perAtomNorms g).map (fun d => c * d) := by
  unfold perAtomNorms
  rw [List.map_map, List.map_map]
  refine List.map_congr_left ?_
  intro v _
  have hsq : vec3NormSq (vscale c v) = c ^ 2 * vec3NormSq v := by
    unfold vec3NormSq vscale
    ring
  simp only [Function.comp]
  rw [hsq, Real.sqrt_mul (sq_nonneg c), Real.sqrt_sq hc.le]

lemma flexMean_scale (c : ℝ) (l : List ℝ) :
    flexMean (l.map (fun d => c * d)) = c * flexMean l := by
  unfold flexMean
  rw [List.length_map]
  have hsum : (l.map (fun d => c * d)).sum = c * l.sum := by
    induction l with
    | nil => simp
    | cons a t ih => simp [ih]; ring
  rw [hsum, mul_div_assoc]

/-- C7: the outlier mask of `compute_weight` is invariant under positive
scaling of the gradient array: scaling every gradient vector by `c > 0`
scales every per-atom norm and the mean norm by `c`, so the set of atoms
whose norm exceeds six times the mean is unchanged. -/
theorem outlierSel_scale_invariant (c : ℝ) (hc : 0 < c) (g : List Vec3) :
    outlierSel (g.map (vscale c)) = outlierSel g := by
  unfold outlierSel
  rw [perAtomNorms_scale c hc, flexMean_scale, List.map_map]
  refine List.map_congr_left ?_
  intro d _
  simp only [Function.comp]
  refine decide_eq_decide.mpr ?_
  rw [gt_iff_lt, gt_iff_lt, mul_assoc]
  exact mul_lt_mul_left hc

/-- Witness for C7 at scaling factor 2 and a concrete one-atom gradient
array. -/
theorem outlierSel_scale_invariant_witness :
    (0 : ℝ) < 2 ∧
    outlierSel ([((1 : ℝ), 0, 0)].map (vscale 2)) = outlierSel [((1 : ℝ), 0, 0)] :=
  ⟨by norm_num, outlierSel_scale_invariant 2 (by norm_num) [((1 : ℝ), 0, 0)]⟩

lemma vec3AsDouble_zipWith_scale (a b : ℝ) :
    ∀ g1 g2 : List Vec3,
      vec3AsDouble (List.zipWith vadd (g1.map (vscale a)) (g2.map (vscale b))) =
        List.zipWith (fun p q => a * p + b * q) (vec3AsDouble g1)
          (vec3AsDouble g2) := by
  intro g1
  induction g1 with
  | nil => intro g2; simp [vec3AsDouble]
  | cons v t ih =>
    intro g2
    cases g2 with
    | nil => simp [vec3AsDouble]
    | cons w u =>
      have ih2 := ih u
      unfold vec3AsDouble at ih2 ⊢
      simp only [List.map_cons, List.zipWith_cons_cons, List.flatMap_cons,
        List.cons_append, List.nil_append]
      rw [ih2]
      simp [vadd, vscale]

lemma map_vscale_vscale (b1 b2 : ℝ) (g : List Vec3) :
    (g.map (vscale b1)).map (vscale b2) = g.map (vscale (b2 * b1)) := by
  rw [List.map_map]
  refine List.map_congr_left ?_
  intro v _
  simp only [Function.comp]
  unfold vscale
  refine Prod.ext ?_ (Prod.ext ?_ ?_) <;> simp <;> ring

/-- C1: with the gradient dump disabled and the weights supplied, the
site composite objective returns the scalar
`data_weight * data_target + restraints_weight * restraints_weight_scale
* restraints_target` and the element-wise combination
`data_weight * data_gradient + restraints_weight *
restraints_weight_scale * restraints_gradient` over the flattened
parameter ordering. -/
theorem sites_target_and_gradients_combination
    (restraintsTG dataTG : List Vec3 → ℝ × List Vec3) (st : SitesState)
    (x : List Vec3) (dw rw : ℝ) (hdw : st.weights.data_weight = some dw)
    (hrw : st.weights.restraints_weight = some rw)
    (hdump : st.dump_gradients = none) :
    (SitesState.target_and_gradients restraintsTG dataTG st x).2 =
      some (dw * (dataTG x).1 +
          rw * st.weights.restraints_weight_scale * (restraintsTG x).1,
        List.zipWith
          (fun p q => dw * p + rw * st.weights.restraints_weight_scale * q)
          (vec3AsDouble (dataTG x).2) (vec3AsDouble (restraintsTG x).2)) := by
  obtain ⟨⟨ss, rwt, dwt, wsc, wwp, rss, rfs, rws⟩, dmp, xs⟩ := st
  have hdw2 : dwt = some dw := hdw
  have hrw2 : rwt = some rw := hrw
  have hdump2 : dmp = none := hdump
  subst hdw2 hrw2 hdump2
  unfold SitesState.target_and_gradients
  dsimp only
  rw [if_neg (show ¬((none : Option String) ≠ none) by simp)]
  refine congrArg some (Prod.ext ?_ ?_)
  · show (dataTG x).1 * dw + rw * (restraintsTG x).1 * wsc = _
    ring
  · show vec3AsDouble (List.zipWith vadd ((dataTG x).2.map (vscale dw))
        (((restraintsTG x).2.map (vscale rw)).map (vscale wsc))) = _
    rw [map_vscale_vscale rw wsc, vec3AsDouble_zipWith_scale]
    have hfun : (fun p q : ℝ => dw * p + wsc * rw * q) =
        fun p q : ℝ => dw * p + rw * wsc * q := by
      funext p q
      ring
    rw [hfun]

/-- Witness for C1 at concrete evaluators, a concrete sites state with
supplied weights and the dump disabled, and the empty parameter vector. -/
theorem sites_target_and_gradients_combination_witness :
    stC1.weights.data_weight = some 3 ∧
    stC1.weights.restraints_weight = some 5 ∧
    stC1.dump_gradients = none ∧
    (SitesState.target_and_gradients rtg1 dtg1 stC1 []).2 =
      some (3 * (dtg1 []).1 +
          5 * stC1.weights.restraints_weight_scale * (rtg1 []).1,
        List.zipWith
          (fun p q => 3 * p + 5 * stC1.weights.restraints_weight_scale * q)
          (vec3AsDouble (dtg1 []).2) (vec3AsDouble (rtg1 []).2)) :=
  ⟨rfl, rfl, rfl,
    sites_target_and_gradients_combination rtg1 dtg1 stC1 [] 3 5 rfl rfl rfl⟩

/-- Counterexample for C8: on the empty structure (empty non-hydrogen
selection) with a restraints evaluator that reports bond RMSD 0,
`get_bonds_rmsd` returns the value 0 — it performs no emptiness check
and raises nothing; no `InvalidStructure` error exists in the code. -/
theorem get_bonds_rmsd_empty_selection_returns_value :
    selectMask xrs0.sites_cart (xrs0.hd_selection.map (fun b => !b)) = [] ∧
    get_bonds_rmsd rm0 xrs0 = 0 :=
  ⟨rfl, rfl⟩

/-- C8 amended: `get_bonds_rmsd` contains no empty-selection check: when
the non-hydrogen selection is empty it simply delegates to the external
restraints evaluator on the empty site list and returns whatever that
evaluator reports. -/
theorem get_bonds_rmsd_empty_selection_delegates
    (rm : RestraintsManagerModel) (xrs : XrayStructure)
    (h : selectMask xrs.sites_cart (xrs.hd_selection.map (fun b => !b)) = []) :
    get_bonds_rmsd rm xrs =
      rm.bond_deviations_rmsd (xrs.hd_selection.map (fun b => !b)) [] := by
  unfold get_bonds_rmsd
  dsimp only
  rw [h]

/-- Witness for C8 amended at the empty structure and the evaluator
reporting 0. -/
theorem get_bonds_rmsd_empty_selection_delegates_witness :
    selectMask xrs0.sites_cart (xrs0.hd_selection.map (fun b => !b)) = [] ∧
    get_bonds_rmsd rm0 xrs0 =
      rm0.bond_deviations_rmsd (xrs0.hd_selection.map (fun b => !b)) [] :=
  ⟨rfl, get_bonds_rmsd_empty_selection_delegates rm0 xrs0 rfl⟩
